import Mathlib

/-!
Verification of `metaplex/utils/execution_engine.py`: the submit–retry–confirm
engine.  The two source functions, `execute` (lines 8–35) and `confirmation`
(lines 38–58), are embedded shallowly below.

Modelling conventions:
  * The remote ledger client (`AsyncClient`) is absorbed into two oracles:
    `submit : Nat → Except String R`, giving the outcome of
    `client.send_transaction` on each 0-based attempt index, and
    `statuses : Nat → Except String (List (Option Status))`, giving the value
    of `resp["result"]["value"]` returned by `client.get_signature_statuses`
    on each 1-based poll iteration (the iteration number equals the seconds
    elapsed after the sleep of that iteration).  An `Except.error` models
    the awaited RPC call raising an exception.
  * Python exceptions are modelled by `Except String`; the message string is
    not interpreted.
  * Timeouts and retry budgets are `Nat`: a non-positive Python int makes
    `range(max_retries)` empty and `elapsed < max_timeout` initially false,
    exactly as `0` does here.
  * `print` logging is a side effect with no influence on control flow and is
    not modelled.
  * The signature list `[x.signature for x in tx.signatures]` is only passed
    to `get_signature_statuses`, whose responses are already the oracle, so
    the transaction is not reified beyond its submission results.
-/

namespace ExecutionEngine

/-- The fixed-length secret seed of a signer, modelled as a byte list. -/
abbrev Seed := List Nat

/-- A signer-like object exposing its secret seed (`s.seed` in the source). -/
structure Signer where
  seed : Seed
deriving DecidableEq, Repr

/-- A keypair reconstructed from a seed (`Keypair(seed)` in the source). -/
structure Keypair where
  seed : Seed
deriving DecidableEq, Repr

/-- Embedding of line 19:
`signers = list(map(Keypair, set(map(lambda s: s.seed, signers))))`.
The Python `set` is modelled by `List.dedup`; its iteration order is
unspecified in the source and `dedup` fixes one representative order, which
no claim depends on.  The transform is total: no error path exists. -/
def normalizeSigners (signers : List Signer) : List Keypair :=
  ((signers.map Signer.seed).dedup).map Keypair.mk

/-- One per-signature confirmation status as reported by the ledger
(`{confirmations: int, confirmationStatus: enum}` per the RPC interface);
`none` in a response list models a signature the ledger has not indexed. -/
structure Status where
  confirmations : Int
  confirmationStatus : String
deriving DecidableEq, Repr

/-- Result of one run of the `confirmation` poller, enriched with the value
of `elapsed` at the moment control leaves the loop.  `ok` is the `return`
inside the loop (success), `timeout` is falling off the `while` (the source
returns `None` silently), `err` is an exception propagating out of the
status query (line 44) or out of indexing `value[0]` (line 45). -/
inductive ConfOutcome where
  | ok (elapsed : Nat)
  | timeout (elapsed : Nat)
  | err (e : String) (elapsed : Nat)
deriving DecidableEq, Repr

/-- The elapsed seconds (= number of 1-second sleeps performed) when the
control left the poller loop. -/
def ConfOutcome.elapsed : ConfOutcome → Nat
  | .ok e => e
  | .timeout e => e
  | .err _ e => e

/-- Whether the poller run ended in a propagating exception. -/
def ConfOutcome.isErr : ConfOutcome → Bool
  | .err _ _ => true
  | _ => false

/-- The value of `resp["result"]["value"]` returned by one
`get_signature_statuses` call, or the exception it raised. -/
abbrev StatusResp := Except String (List (Option Status))

/-- Embedding of the `while` loop of `confirmation` (lines 40–58).  The
guard is `elapsed < max_timeout` with `elapsed` starting at 0 and increased
by exactly `sleep_time = 1` per iteration, so the loop runs exactly
`max_timeout - elapsed` further iterations unless it returns early; that
remaining-iteration count is the structural recursion argument, and
`remaining = 0` is the guard failing.  Each iteration sleeps 1 second, adds
it to `elapsed`, queries the statuses, and follows the branching of the
source: `value[0] is None` → continue; otherwise return when
`confirmations >= target or is_finalized` (given `not finalized`) or when
`is_finalized` (given `finalized`); otherwise fall through and loop.  An
empty response list makes `value[0]` raise `IndexError`. -/
def confirmationLoop (statuses : Nat → StatusResp)
    (target : Int) (finalized : Bool) : Nat → Nat → ConfOutcome
  | 0, elapsed => .timeout elapsed
  | remaining + 1, elapsed =>
    match statuses (elapsed + 1) with
    | .error e => .err e (elapsed + 1)
    | .ok [] => .err "IndexError" (elapsed + 1)
    | .ok (none :: _) =>
        confirmationLoop statuses target finalized remaining (elapsed + 1)
    | .ok (some st :: _) =>
        let is_finalized := st.confirmationStatus == "finalized"
        if !finalized then
          if target ≤ st.confirmations || is_finalized then
            .ok (elapsed + 1)
          else
            confirmationLoop statuses target finalized remaining (elapsed + 1)
        else if is_finalized then
          .ok (elapsed + 1)
        else
          confirmationLoop statuses target finalized remaining (elapsed + 1)

/-- Embedding of `confirmation(client, signatures, max_timeout, target,
finalized)` (lines 38–58): the loop started with `elapsed = 0` (line 39),
hence with `max_timeout` iterations remaining. -/
def confirmation (statuses : Nat → StatusResp)
    (maxTimeout : Nat) (target : Int) (finalized : Bool) : ConfOutcome :=
  confirmationLoop statuses target finalized maxTimeout 0

/-- The success test of one observed status, as the source computes it
(lines 46–58): with `finalized` false, `confirmations >= target or
is_finalized`; with `finalized` true, `is_finalized` alone. -/
def statusSuccess (finalized : Bool) (target : Int) (st : Status) : Bool :=
  if !finalized then
    (target ≤ st.confirmations) || (st.confirmationStatus == "finalized")
  else
    st.confirmationStatus == "finalized"

/-- A status-query response on which the loop body of the source neither returns
nor raises: either the first entry is `none` (signature not yet indexed) or
it is a status failing `statusSuccess`. -/
def keepsPolling (finalized : Bool) (target : Int) (r : StatusResp) : Bool :=
  match r with
  | .ok (none :: _) => true
  | .ok (some st :: _) => !statusSuccess finalized target st
  | _ => false

/-- The part of a status-query response the loop body of `confirmation`
actually reads: the exception, or the entry `value[0]` (with `none` for an
out-of-range index, i.e. an empty `value` list, and `some none` for an
unindexed signature). -/
def firstStatus (r : StatusResp) : Except String (Option (Option Status)) :=
  r.map List.head?

/-- Observable trace of one `execute` run: how many times
`client.send_transaction` was called, how many times `confirmation` was
entered, and the returned value (`.ok`) or propagated exception
(`.error`). -/
structure ExecOutcome (R : Type) where
  attempts : Nat
  confInvocations : Nat
  result : Except String R
deriving Repr

/-- Embedding of the `for attempt in range(max_retries)` loop of `execute`
(lines 20–35).  The recursion argument is the number of loop iterations
left in `range(max_retries)`; alongside it run the current `attempt` index
and the number of `confirmation` invocations so far (indexing the
per-invocation status oracle).  The body of the `try` is: submit; on
success read the signatures and, unless `skip_confirmation`, run
`confirmation`; then `return result`.  Any exception raised inside the
`try` — by `send_transaction` or from inside `confirmation` — is caught by
`except Exception as e` and the loop continues.  After the loop, `raise e`
runs; because Python 3 deletes the name bound by `except ... as e` when the
except clause is left (the clause is compiled with an implicit
`finally: del e`, see the language reference on the try statement), `e` is
unbound there on every path, and line 35 raises `UnboundLocalError` — it
never re-raises the caught exception.  That exhaustion outcome is modelled
by the string "UnboundLocalError". -/
def executeLoop {R : Type} (submit : Nat → Except String R)
    (statuses : Nat → Nat → StatusResp)
    (skipConfirmation : Bool) (maxTimeout : Nat)
    (target : Int) (finalized : Bool) : Nat → Nat → Nat → ExecOutcome R
  | 0, attempt, confCalls => ⟨attempt, confCalls, .error "UnboundLocalError"⟩
  | remaining + 1, attempt, confCalls =>
    match submit attempt with
    | .error _e =>
        executeLoop submit statuses skipConfirmation maxTimeout target
          finalized remaining (attempt + 1) confCalls
    | .ok r =>
        if skipConfirmation then
          ⟨attempt + 1, confCalls, .ok r⟩
        else
          match confirmation (statuses confCalls) maxTimeout target finalized with
          | .err _e _ =>
              executeLoop submit statuses skipConfirmation maxTimeout target
                finalized remaining (attempt + 1) (confCalls + 1)
          | _ => ⟨attempt + 1, confCalls + 1, .ok r⟩

/-- Embedding of `execute(api_endpoint, tx, signers, max_retries,
skip_confirmation, max_timeout, target, finalized)` (lines 8–35): the retry
loop entered with `max_retries` iterations remaining, at attempt index 0,
with no confirmation run yet.  The endpoint/client and the transaction are
absorbed into the two oracles. -/
def execute {R : Type} (submit : Nat → Except String R)
    (statuses : Nat → Nat → StatusResp)
    (maxRetries : Nat) (skipConfirmation : Bool) (maxTimeout : Nat)
    (target : Int) (finalized : Bool) : ExecOutcome R :=
  executeLoop submit statuses skipConfirmation maxTimeout target finalized
    maxRetries 0 0

/-- Default of `max_retries` (line 12). -/
def defaultMaxRetries : Nat := 3

/-- Default of `skip_confirmation` (line 13). -/
def defaultSkipConfirmation : Bool := true

/-- Default of `max_timeout` (line 14). -/
def defaultMaxTimeout : Nat := 60

/-- Default of `target` (line 15). -/
def defaultTarget : Int := 20

/-- Default of `finalized` (line 16). -/
def defaultFinalized : Bool := true

/-- `execute` as called with every optional parameter omitted. -/
def executeWithDefaults {R : Type} (submit : Nat → Except String R)
    (statuses : Nat → Nat → StatusResp) :
    ExecOutcome R :=
  execute submit statuses defaultMaxRetries defaultSkipConfirmation
    defaultMaxTimeout defaultTarget defaultFinalized

/-! Helper lemmas about the confirmation loop. -/

/-- One loop iteration whose status response neither returns nor raises
continues the loop with one more second elapsed. -/
theorem confirmationLoop_keepStep (statuses : Nat → StatusResp) (target : Int)
    (finalized : Bool) (remaining elapsed : Nat)
    (hk : keepsPolling finalized target (statuses (elapsed + 1)) = true) :
    confirmationLoop statuses target finalized (remaining + 1) elapsed =
      confirmationLoop statuses target finalized remaining (elapsed + 1) := by
  cases hr : statuses (elapsed + 1) with
  | error e => simp [keepsPolling, hr] at hk
  | ok l =>
    match l with
    | [] => simp [keepsPolling, hr] at hk
    | none :: tl => simp [confirmationLoop, hr]
    | some st :: tl =>
      rw [hr] at hk
      simp only [keepsPolling, Bool.not_eq_true'] at hk
      rw [statusSuccess] at hk
      simp only [confirmationLoop, hr]
      cases finalized with
      | true => simp only [Bool.not_true, Bool.false_eq_true, if_false] at hk ⊢; simp [hk]
      | false => simp only [Bool.not_false, if_true] at hk ⊢; simp [hk]

/-- One loop iteration whose first observed status passes the success test
of the source returns with one more second elapsed. -/
theorem confirmationLoop_successStep (statuses : Nat → StatusResp) (target : Int)
    (finalized : Bool) (remaining elapsed : Nat) (st : Status)
    (rest : List (Option Status))
    (hr : statuses (elapsed + 1) = .ok (some st :: rest))
    (hs : statusSuccess finalized target st = true) :
    confirmationLoop statuses target finalized (remaining + 1) elapsed =
      .ok (elapsed + 1) := by
  rw [statusSuccess] at hs
  simp only [confirmationLoop, hr]
  cases finalized with
  | true => simp only [Bool.not_true, Bool.false_eq_true, if_false] at hs ⊢; simp [hs]
  | false => simp only [Bool.not_false, if_true] at hs ⊢; simp [hs]

/-- Running the loop across `j` consecutive keep-polling responses advances
`elapsed` by `j` and consumes `j` remaining iterations. -/
theorem confirmationLoop_skip (statuses : Nat → StatusResp) (target : Int)
    (finalized : Bool) :
    ∀ (j remaining elapsed : Nat), j ≤ remaining →
    (∀ t, elapsed < t → t ≤ elapsed + j →
      keepsPolling finalized target (statuses t) = true) →
    confirmationLoop statuses target finalized remaining elapsed =
      confirmationLoop statuses target finalized (remaining - j) (elapsed + j) := by
  intro j
  induction j with
  | zero => intro remaining elapsed _ _; rfl
  | succ j ih =>
    intro remaining elapsed hj hk
    obtain ⟨rem, rfl⟩ : ∃ rem, remaining = rem + 1 := ⟨remaining - 1, by omega⟩
    rw [confirmationLoop_keepStep statuses target finalized rem elapsed
      (hk (elapsed + 1) (by omega) (by omega))]
    rw [ih rem (elapsed + 1) (by omega) (fun t h1 h2 => hk t (by omega) (by omega))]
    rw [show rem + 1 - (j + 1) = rem - j by omega,
        show elapsed + (j + 1) = elapsed + 1 + j by omega]

/-- A run all of whose responses keep polling exits by the loop guard, with
`elapsed` increased by the number of remaining iterations. -/
theorem confirmationLoop_allKeep_timeout (statuses : Nat → StatusResp)
    (target : Int) (finalized : Bool) (remaining elapsed : Nat)
    (hk : ∀ t, elapsed < t → t ≤ elapsed + remaining →
      keepsPolling finalized target (statuses t) = true) :
    confirmationLoop statuses target finalized remaining elapsed =
      .timeout (elapsed + remaining) := by
  rw [confirmationLoop_skip statuses target finalized remaining remaining elapsed
    le_rfl hk]
  rw [Nat.sub_self]
  rfl

/-- C6: for every status sequence that never satisfies the success
condition — each queried response either has no status yet for the first
signature or a status failing the success test — the Confirmation Poller
returns normally, via the loop guard, after exactly `maxTimeout` seconds of
elapsed time, and the number of 1-second sleeps it performed never exceeds
the configured timeout. -/
theorem confirmation_never_success_times_out (statuses : Nat → StatusResp)
    (maxTimeout : Nat) (target : Int) (finalized : Bool)
    (hk : ∀ t, 1 ≤ t → t ≤ maxTimeout →
      keepsPolling finalized target (statuses t) = true) :
    confirmation statuses maxTimeout target finalized = .timeout maxTimeout ∧
    (confirmation statuses maxTimeout target finalized).elapsed ≤ maxTimeout := by
  have h := confirmationLoop_allKeep_timeout statuses target finalized maxTimeout 0
    (fun t h1 h2 => hk t (by omega) (by omega))
  rw [Nat.zero_add] at h
  rw [confirmation, h]
  exact ⟨rfl, le_rfl⟩

/-- Witness for C6: a status stuck at one confirmation and never finalized
makes the poller time out after exactly 5 of 5 seconds. -/
theorem confirmation_never_success_times_out_witness :
    confirmation (fun _ => .ok [some ⟨1, "confirmed"⟩]) 5 20 true = .timeout 5 ∧
    (confirmation (fun _ => .ok [some ⟨1, "confirmed"⟩]) 5 20 true).elapsed ≤ 5 :=
  confirmation_never_success_times_out _ 5 20 true (fun _ _ _ => by decide)

/-- C9: a poll iteration in which the query returns no status yet for the
first tracked signature is skipped without raising: the loop state advances
by exactly the 1-second interval (one remaining iteration consumed,
`elapsed` incremented by 1) and polling continues from there until success
or timeout. -/
theorem confirmation_unknown_status_keeps_polling (statuses : Nat → StatusResp)
    (target : Int) (finalized : Bool) (remaining elapsed : Nat)
    (rest : List (Option Status))
    (hr : statuses (elapsed + 1) = .ok (none :: rest)) :
    confirmationLoop statuses target finalized (remaining + 1) elapsed =
      confirmationLoop statuses target finalized remaining (elapsed + 1) := by
  simp [confirmationLoop, hr]

/-- Witness for C9: with a not-yet-indexed signature at the first iteration,
the loop at 2 remaining iterations and 0 seconds elapsed continues as the
loop at 1 remaining iteration and 1 second elapsed. -/
theorem confirmation_unknown_status_keeps_polling_witness :
    confirmationLoop (fun _ => .ok [none]) 20 true 2 0 =
      confirmationLoop (fun _ => .ok [none]) 20 true 1 1 :=
  confirmation_unknown_status_keeps_polling _ 20 true 1 0 [] rfl

/-- When finality is required, the running loop never reads `target`. -/
theorem confirmationLoop_finalized_target_irrel (statuses : Nat → StatusResp)
    (t1 t2 : Int) :
    ∀ remaining elapsed,
      confirmationLoop statuses t1 true remaining elapsed =
        confirmationLoop statuses t2 true remaining elapsed := by
  intro remaining
  induction remaining with
  | zero => intro _; rfl
  | succ rem ih =>
    intro elapsed
    cases hr : statuses (elapsed + 1) with
    | error e => simp [confirmationLoop, hr]
    | ok l =>
      match l with
      | [] => simp [confirmationLoop, hr]
      | none :: tl => simp only [confirmationLoop, hr]; exact ih _
      | some st :: tl =>
        simp only [confirmationLoop, hr, Bool.not_true, Bool.false_eq_true,
          if_false]
        split
        · rfl
        · exact ih _

/-- With finality required, if every response before iteration `n` keeps the
loop polling and iteration `n` (within the timeout) observes a finalized
first status, the poller returns at elapsed time exactly `n`. -/
theorem confirmation_finalized_at (statuses : Nat → StatusResp)
    (maxTimeout : Nat) (target : Int) (n : Nat) (st : Status)
    (rest : List (Option Status))
    (h1 : 1 ≤ n) (h2 : n ≤ maxTimeout)
    (hk : ∀ t, 1 ≤ t → t < n → keepsPolling true target (statuses t) = true)
    (hr : statuses n = .ok (some st :: rest))
    (hf : st.confirmationStatus = "finalized") :
    confirmation statuses maxTimeout target true = .ok n := by
  rw [confirmation]
  rw [confirmationLoop_skip statuses target true (n - 1) maxTimeout 0 (by omega)
    (fun t ht1 ht2 => hk t (by omega) (by omega))]
  obtain ⟨rem, hrem⟩ : ∃ rem, maxTimeout - (n - 1) = rem + 1 :=
    ⟨maxTimeout - n, by omega⟩
  rw [hrem, Nat.zero_add]
  rw [confirmationLoop_successStep statuses target true rem (n - 1) st rest
    (by rw [show n - 1 + 1 = n by omega]; exact hr)
    (by simp [statusSuccess, hf])]
  rw [show n - 1 + 1 = n by omega]

/-- Without finality required, if every response before iteration `m` keeps
the loop polling and iteration `m` (within the timeout) observes a first
status whose confirmation count has reached `target`, the poller returns at
elapsed time exactly `m`. -/
theorem confirmation_target_reached_at (statuses : Nat → StatusResp)
    (maxTimeout : Nat) (target : Int) (m : Nat) (st : Status)
    (rest : List (Option Status))
    (h1 : 1 ≤ m) (h2 : m ≤ maxTimeout)
    (hk : ∀ t, 1 ≤ t → t < m → keepsPolling false target (statuses t) = true)
    (hr : statuses m = .ok (some st :: rest))
    (hc : target ≤ st.confirmations) :
    confirmation statuses maxTimeout target false = .ok m := by
  rw [confirmation]
  rw [confirmationLoop_skip statuses target false (m - 1) maxTimeout 0 (by omega)
    (fun t ht1 ht2 => hk t (by omega) (by omega))]
  obtain ⟨rem, hrem⟩ : ∃ rem, maxTimeout - (m - 1) = rem + 1 :=
    ⟨maxTimeout - m, by omega⟩
  rw [hrem, Nat.zero_add]
  rw [confirmationLoop_successStep statuses target false rem (m - 1) st rest
    (by rw [show m - 1 + 1 = m by omega]; exact hr)
    (by simp [statusSuccess, hc])]
  rw [show m - 1 + 1 = m by omega]

/-- The loop body reads a response only through its first entry: two status
oracles agreeing on `firstStatus` at every iteration drive the loop to the
same outcome. -/
theorem confirmationLoop_firstStatus_congr (s1 s2 : Nat → StatusResp)
    (target : Int) (finalized : Bool)
    (hs : ∀ t, firstStatus (s1 t) = firstStatus (s2 t)) :
    ∀ remaining elapsed,
      confirmationLoop s1 target finalized remaining elapsed =
        confirmationLoop s2 target finalized remaining elapsed := by
  intro remaining
  induction remaining with
  | zero => intro _; rfl
  | succ rem ih =>
    intro elapsed
    have h := hs (elapsed + 1)
    cases h1 : s1 (elapsed + 1) with
    | error e1 =>
      cases h2 : s2 (elapsed + 1) with
      | error e2 =>
        rw [h1, h2] at h
        simp only [firstStatus, Except.map] at h
        cases h
        simp [confirmationLoop, h1, h2]
      | ok l2 => rw [h1, h2] at h; simp [firstStatus, Except.map] at h
    | ok l1 =>
      cases h2 : s2 (elapsed + 1) with
      | error e2 => rw [h1, h2] at h; simp [firstStatus, Except.map] at h
      | ok l2 =>
        rw [h1, h2] at h
        simp only [firstStatus, Except.map, Except.ok.injEq] at h
        match l1, l2, h with
        | [], [], _ => simp [confirmationLoop, h1, h2]
        | [], x :: _, h => simp [List.head?] at h
        | x :: _, [], h => simp [List.head?] at h
        | x1 :: t1, x2 :: t2, h =>
          simp only [List.head?, Option.some.injEq] at h
          cases h
          match x1 with
          | none => simp only [confirmationLoop, h1, h2]; exact ih _
          | some st =>
            simp only [confirmationLoop, h1, h2]
            cases finalized with
            | true =>
              simp only [Bool.not_true, Bool.false_eq_true, if_false]
              split
              · rfl
              · exact ih _
            | false =>
              simp only [Bool.not_false, if_true]
              split
              · rfl
              · exact ih _

/-- C5: (a) with finality required, if the status sequence first satisfies
the success test at iteration `n` (within the timeout) by reporting a
finalized first status, the Poller returns successfully at elapsed time `n`
seconds, one second per iteration, and not later; (b) with the `finalized`
flag false, if the first status first reaches a confirmation count of at
least `target` at iteration `m` before ever finalizing, the Poller returns
at elapsed time `m` seconds; (c) only the first tracked signature gates the
loop: oracles agreeing on the first entry of every response yield identical
poller outcomes. -/
theorem confirmation_first_success_time :
    (∀ (statuses : Nat → StatusResp) (maxTimeout : Nat) (target : Int)
        (n : Nat) (st : Status) (rest : List (Option Status)),
      1 ≤ n → n ≤ maxTimeout →
      (∀ t, 1 ≤ t → t < n → keepsPolling true target (statuses t) = true) →
      statuses n = .ok (some st :: rest) →
      st.confirmationStatus = "finalized" →
      confirmation statuses maxTimeout target true = .ok n) ∧
    (∀ (statuses : Nat → StatusResp) (maxTimeout : Nat) (target : Int)
        (m : Nat) (st : Status) (rest : List (Option Status)),
      1 ≤ m → m ≤ maxTimeout →
      (∀ t, 1 ≤ t → t < m → keepsPolling false target (statuses t) = true) →
      statuses m = .ok (some st :: rest) →
      target ≤ st.confirmations →
      confirmation statuses maxTimeout target false = .ok m) ∧
    (∀ (s1 s2 : Nat → StatusResp) (maxTimeout : Nat) (target : Int)
        (finalized : Bool),
      (∀ t, firstStatus (s1 t) = firstStatus (s2 t)) →
      confirmation s1 maxTimeout target finalized =
        confirmation s2 maxTimeout target finalized) :=
  ⟨confirmation_finalized_at, confirmation_target_reached_at,
   fun s1 s2 maxTimeout target finalized hs =>
     confirmationLoop_firstStatus_congr s1 s2 target finalized hs maxTimeout 0⟩

/-- Witness for C5: (a) a status that is "confirmed" for two iterations and
finalized at iteration 3 makes the poller return at 3 seconds; (b) with the
`finalized` flag false and `target = 2`, a confirmation count equal to the
iteration number makes the poller return at 2 seconds; (c) appending a
second-signature status to every response changes nothing. -/
theorem confirmation_first_success_time_witness :
    confirmation
      (fun t => if t < 3 then .ok [some ⟨1, "confirmed"⟩]
                else .ok [some ⟨1, "finalized"⟩]) 10 20 true = .ok 3 ∧
    confirmation (fun t => .ok [some ⟨Int.ofNat t, "confirmed"⟩]) 10 2 false =
      .ok 2 ∧
    confirmation (fun _ => .ok [some ⟨1, "finalized"⟩, none]) 5 20 true =
      confirmation (fun _ => .ok [some ⟨1, "finalized"⟩]) 5 20 true := by
  refine ⟨confirmation_first_success_time.1 _ 10 20 3 ⟨1, "finalized"⟩ []
            (by omega) (by omega) ?_ ?_ rfl,
          confirmation_first_success_time.2.1 _ 10 2 2 ⟨Int.ofNat 2, "confirmed"⟩
            [] (by omega) (by omega) ?_ rfl (by decide),
          confirmation_first_success_time.2.2 _ _ 5 20 true (fun t => rfl)⟩
  · intro t ht1 ht2
    show keepsPolling true 20 (if t < 3 then _ else _) = true
    rw [if_pos ht2]
    decide
  · show (fun t => if t < 3 then (Except.ok [some ⟨1, "confirmed"⟩] : StatusResp)
      else .ok [some ⟨1, "finalized"⟩]) 3 = .ok [some ⟨1, "finalized"⟩]
    rfl
  · intro t ht1 ht2
    have ht : t = 1 := by omega
    subst ht
    decide

/-- C10: with `finalized = true`, two runs of the Confirmation Poller that
differ only in `target` (same status sequence, same `maxTimeout`) have
identical outcomes: `target` has no influence when finality is required. -/
theorem confirmation_target_irrelevant_when_finalized
    (statuses : Nat → StatusResp) (maxTimeout : Nat) (t1 t2 : Int) :
    confirmation statuses maxTimeout t1 true =
      confirmation statuses maxTimeout t2 true :=
  confirmationLoop_finalized_target_irrel statuses t1 t2 maxTimeout 0

/-! Helper lemmas about the retry loop of `execute`. -/

/-- With `skip_confirmation` true, the retry loop never runs `confirmation`:
the invocation counter is left untouched on every path. -/
theorem executeLoop_skipTrue_confCalls {R : Type} (submit : Nat → Except String R)
    (statuses : Nat → Nat → StatusResp) (maxTimeout : Nat) (target : Int)
    (finalized : Bool) :
    ∀ remaining attempt confCalls,
      (executeLoop submit statuses true maxTimeout target finalized
        remaining attempt confCalls).confInvocations = confCalls := by
  intro remaining
  induction remaining with
  | zero => intro attempt confCalls; rfl
  | succ rem ih =>
    intro attempt confCalls
    cases hs : submit attempt with
    | error e => simp only [executeLoop, hs]; exact ih _ _
    | ok r => simp [executeLoop, hs]

/-- A run of the retry loop all of whose remaining submission attempts fail
consumes every remaining iteration and exits through line 35, where
`raise e` finds the except-clause variable already deleted and Python
raises `UnboundLocalError`. -/
theorem executeLoop_allFail {R : Type} (submit : Nat → Except String R)
    (statuses : Nat → Nat → StatusResp) (skip : Bool) (maxTimeout : Nat)
    (target : Int) (finalized : Bool) :
    ∀ remaining attempt confCalls,
      (∀ i, attempt ≤ i → i < attempt + remaining → ∃ e, submit i = .error e) →
      executeLoop submit statuses skip maxTimeout target finalized
        remaining attempt confCalls =
        ⟨attempt + remaining, confCalls, .error "UnboundLocalError"⟩ := by
  intro remaining
  induction remaining with
  | zero => intro attempt confCalls _; rfl
  | succ rem ih =>
    intro attempt confCalls hf
    obtain ⟨e, he⟩ := hf attempt le_rfl (by omega)
    simp only [executeLoop, he]
    rw [ih (attempt + 1) confCalls (fun i h1 h2 => hf i (by omega) (by omega))]
    rw [show attempt + 1 + rem = attempt + (rem + 1) by omega]

/-- An iteration of the retry loop whose submission succeeds, and whose
confirmation step is skipped or completes without raising, returns that
submission result immediately. -/
theorem executeLoop_successStep {R : Type} (submit : Nat → Except String R)
    (statuses : Nat → Nat → StatusResp) (skip : Bool) (maxTimeout : Nat)
    (target : Int) (finalized : Bool) (remaining attempt confCalls : Nat)
    (r : R)
    (hok : submit attempt = .ok r)
    (hconf : skip = true ∨
      (confirmation (statuses confCalls) maxTimeout target finalized).isErr
        = false) :
    executeLoop submit statuses skip maxTimeout target finalized
      (remaining + 1) attempt confCalls =
      ⟨attempt + 1, if skip then confCalls else confCalls + 1, .ok r⟩ := by
  rcases hconf with hsk | hc
  · subst hsk
    simp [executeLoop, hok]
  · cases skip with
    | true => simp [executeLoop, hok]
    | false =>
      simp only [executeLoop, hok, Bool.false_eq_true, if_false]
      cases hco : confirmation (statuses confCalls) maxTimeout target finalized with
      | ok t => rfl
      | timeout t => rfl
      | err e t => rw [hco] at hc; simp [ConfOutcome.isErr] at hc

/-- A failing prefix of `j` attempts advances the attempt index by `j`,
consumes `j` iterations, and runs no confirmation. -/
theorem executeLoop_failPrefix {R : Type} (submit : Nat → Except String R)
    (statuses : Nat → Nat → StatusResp) (skip : Bool) (maxTimeout : Nat)
    (target : Int) (finalized : Bool) :
    ∀ j remaining attempt confCalls, j ≤ remaining →
      (∀ i, i < j → ∃ e, submit (attempt + i) = .error e) →
      executeLoop submit statuses skip maxTimeout target finalized
        remaining attempt confCalls =
        executeLoop submit statuses skip maxTimeout target finalized
          (remaining - j) (attempt + j) confCalls := by
  intro j
  induction j with
  | zero => intro remaining attempt confCalls _ _; rfl
  | succ j ih =>
    intro remaining attempt confCalls hj hf
    obtain ⟨rem, rfl⟩ : ∃ rem, remaining = rem + 1 := ⟨remaining - 1, by omega⟩
    obtain ⟨e, he⟩ := hf 0 (by omega)
    rw [Nat.add_zero] at he
    simp only [executeLoop, he]
    rw [ih rem (attempt + 1) confCalls (by omega) (fun i hi => by
      obtain ⟨e2, he2⟩ := hf (i + 1) (by omega)
      refine ⟨e2, ?_⟩
      rw [show attempt + 1 + i = attempt + (i + 1) by omega]
      exact he2)]
    rw [show rem + 1 - (j + 1) = rem - j by omega,
        show attempt + (j + 1) = attempt + 1 + j by omega]

/-- C1 (evaluating the code at the failing scenario): if `submit` raises on
every one of the `maxRetries ≥ 1` attempts, `execute` performs exactly
`maxRetries` submission attempts, never invokes the poller, and raises —
but the raised exception is the fixed `UnboundLocalError` from line 35
(Python 3 deletes the variable bound by `except ... as e` when the except
clause is left), not the error of the final attempt, whatever the attempt
errors were. -/
theorem execute_all_attempts_fail {R : Type} (submit : Nat → Except String R)
    (statuses : Nat → Nat → StatusResp) (maxRetries : Nat) (skip : Bool)
    (maxTimeout : Nat) (target : Int) (finalized : Bool)
    (_hr : 1 ≤ maxRetries)
    (hf : ∀ i, i < maxRetries → ∃ e, submit i = .error e) :
    execute submit statuses maxRetries skip maxTimeout target finalized =
      ⟨maxRetries, 0, .error "UnboundLocalError"⟩ := by
  rw [execute]
  rw [executeLoop_allFail submit statuses skip maxTimeout target finalized
    maxRetries 0 0 (fun i h1 h2 => hf i (by omega))]
  rw [Nat.zero_add]

/-- Witness for C1: three attempts all raising "boom" give exactly 3
attempts and the propagated `UnboundLocalError`. -/
theorem execute_all_attempts_fail_witness :
    execute (R := Nat) (fun _ => .error "boom") (fun _ _ => .ok [])
      3 true 60 20 true = ⟨3, 0, .error "UnboundLocalError"⟩ :=
  execute_all_attempts_fail _ _ 3 true 60 20 true (by omega)
    (fun i _ => ⟨"boom", rfl⟩)

/-- Counterexample to C2 as stated: with `maxRetries = 2` and
`skipConfirmation = false`, attempt 1 submits successfully (`.ok 7`), but
the confirmation step raises (its status query fails), the exception is
caught by the same `except` clause, and the transaction is submitted a
second time — the run records 2 submission attempts and returns the second
result, although the first submit call already returned a result. -/
theorem execute_resubmits_after_confirmation_error :
    (fun i => if i = 0 then (Except.ok 7 : Except String Nat) else .ok 8) 0 =
      .ok 7 ∧
    execute (fun i => if i = 0 then (Except.ok 7 : Except String Nat) else .ok 8)
      (fun c _ => if c = 0 then .error "network" else .ok [some ⟨1, "finalized"⟩])
      2 false 1 20 true = ⟨2, 2, .ok 8⟩ :=
  ⟨rfl, rfl⟩

/-- C2 as amended: a submission attempt is retried only when the body of the
try block raises — from the submit call or from the confirmation step; once
an attempt submits successfully and its confirmation step (when not
skipped) completes without raising, the loop terminates with that attempt
having been the last, returning its raw submission result. -/
theorem execute_attempt_succeeds_when_confirmation_ok {R : Type}
    (submit : Nat → Except String R) (statuses : Nat → Nat → StatusResp)
    (skip : Bool) (maxTimeout : Nat) (target : Int) (finalized : Bool)
    (remaining attempt confCalls : Nat) (r : R)
    (hok : submit attempt = .ok r)
    (hconf : skip = true ∨
      (confirmation (statuses confCalls) maxTimeout target finalized).isErr
        = false) :
    (executeLoop submit statuses skip maxTimeout target finalized
      (remaining + 1) attempt confCalls).result = .ok r ∧
    (executeLoop submit statuses skip maxTimeout target finalized
      (remaining + 1) attempt confCalls).attempts = attempt + 1 := by
  rw [executeLoop_successStep submit statuses skip maxTimeout target finalized
    remaining attempt confCalls r hok hconf]
  exact ⟨rfl, rfl⟩

/-- Witness for C2 as amended: an immediately successful submit with
confirmation skipped terminates after 1 attempt with its result. -/
theorem execute_attempt_succeeds_when_confirmation_ok_witness :
    (executeLoop (R := Nat) (fun _ => .ok 5) (fun _ _ => .ok []) true 60 20
      true 3 0 0).result = .ok 5 ∧
    (executeLoop (R := Nat) (fun _ => .ok 5) (fun _ _ => .ok []) true 60 20
      true 3 0 0).attempts = 1 :=
  execute_attempt_succeeds_when_confirmation_ok _ _ true 60 20 true 2 0 0 5
    rfl (Or.inl rfl)

/-- Counterexample to C3 as stated: `skip_confirmation` defaults to `True`
(line 13), not false — calling `execute` with every optional argument
omitted and a successful submission returns the result with the
Confirmation Poller never invoked (0 invocations), even though the status
oracle here would be observable (it raises). -/
theorem execute_default_does_not_confirm :
    defaultSkipConfirmation ≠ false ∧
    (executeWithDefaults (R := Nat) (fun _ => .ok 42)
      (fun _ _ => .error "network")).result = .ok 42 ∧
    (executeWithDefaults (R := Nat) (fun _ => .ok 42)
      (fun _ _ => .error "network")).confInvocations = 0 :=
  ⟨by decide, rfl, rfl⟩

/-- C3 as amended: the engine defaults `skipConfirmation` to true — when the
caller omits the option, the Confirmation Poller is never invoked,
regardless of the submission and status behavior. -/
theorem execute_default_skips_confirmation {R : Type}
    (submit : Nat → Except String R) (statuses : Nat → Nat → StatusResp) :
    defaultSkipConfirmation = true ∧
    (executeWithDefaults submit statuses).confInvocations = 0 :=
  ⟨rfl, executeLoop_skipTrue_confCalls submit statuses defaultMaxTimeout
    defaultTarget defaultFinalized defaultMaxRetries 0 0⟩

/-- Counterexample to C4 as stated: with `maxRetries = 2`, `submit` succeeds
on attempt 1 (`k = 1`, no earlier failures), yet because
`skipConfirmation = false` and the confirmation step raises, `execute`
performs 2 attempts — not exactly `k = 1` — and, the second submit failing,
returns an error instead of the result of attempt 1. -/
theorem execute_extra_attempts_after_success :
    (fun i => if i = 0 then (Except.ok 5 : Except String Nat)
      else .error "rejected") 0 = .ok 5 ∧
    execute (fun i => if i = 0 then (Except.ok 5 : Except String Nat)
      else .error "rejected") (fun _ _ => .error "network") 2 false 1 20 true =
      ⟨2, 1, .error "UnboundLocalError"⟩ :=
  ⟨rfl, rfl⟩

/-- C4 as amended: if `submit` raises on attempts `1..k-1` and succeeds on
attempt `k ≤ maxRetries`, and the confirmation step is skipped or completes
without raising, then `execute` performs exactly `k` submission attempts
and returns attempt `k` raw submission result; attempts `k+1..maxRetries`
never occur. -/
theorem execute_first_success_attempt_count {R : Type}
    (submit : Nat → Except String R) (statuses : Nat → Nat → StatusResp)
    (maxRetries : Nat) (skip : Bool) (maxTimeout : Nat) (target : Int)
    (finalized : Bool) (k : Nat) (r : R)
    (hk1 : 1 ≤ k) (hk2 : k ≤ maxRetries)
    (hfail : ∀ i, i < k - 1 → ∃ e, submit i = .error e)
    (hok : submit (k - 1) = .ok r)
    (hconf : skip = true ∨
      (confirmation (statuses 0) maxTimeout target finalized).isErr = false) :
    (execute submit statuses maxRetries skip maxTimeout target
      finalized).attempts = k ∧
    (execute submit statuses maxRetries skip maxTimeout target
      finalized).result = .ok r := by
  rw [execute]
  rw [executeLoop_failPrefix submit statuses skip maxTimeout target finalized
    (k - 1) maxRetries 0 0 (by omega)
    (fun i hi => by
      obtain ⟨e, he⟩ := hfail i hi
      exact ⟨e, by rw [Nat.zero_add]; exact he⟩)]
  obtain ⟨rem, hrem⟩ : ∃ rem, maxRetries - (k - 1) = rem + 1 :=
    ⟨maxRetries - k, by omega⟩
  rw [hrem, Nat.zero_add]
  rw [executeLoop_successStep submit statuses skip maxTimeout target finalized
    rem (k - 1) 0 r hok hconf]
  refine ⟨?_, rfl⟩
  show k - 1 + 1 = k
  omega

/-- Witness for C4 as amended: one failing then one successful attempt with
confirmation skipped gives exactly 2 attempts and the second result. -/
theorem execute_first_success_attempt_count_witness :
    (execute (R := Nat) (fun i => if i = 0 then .error "f" else .ok 9)
      (fun _ _ => .ok []) 3 true 60 20 true).attempts = 2 ∧
    (execute (R := Nat) (fun i => if i = 0 then .error "f" else .ok 9)
      (fun _ _ => .ok []) 3 true 60 20 true).result = .ok 9 :=
  execute_first_success_attempt_count _ _ 3 true 60 20 true 2 9 (by omega)
    (by omega)
    (fun i hi => ⟨"f", by
      have hi0 : i = 0 := by omega
      subst hi0
      rfl⟩)
    rfl (Or.inl rfl)

/-- C7: for every input sequence of signer objects, possibly containing
duplicates by underlying secret seed, normalization produces exactly one
signer per distinct seed — the output size equals the number of distinct
seeds — and the empty input yields the empty output; the transform is a
total function, so no error is ever raised. -/
theorem normalize_signers_distinct_seed_count (signers : List Signer) :
    (normalizeSigners signers).length =
      (signers.map Signer.seed).toFinset.card ∧
    normalizeSigners [] = [] := by
  refine ⟨?_, rfl⟩
  rw [normalizeSigners, List.length_map, List.card_toFinset]

/-- C8: with `skipConfirmation = true`, the Confirmation Poller is never
invoked — zero confirmation invocations — regardless of how submission
attempts succeed or fail and regardless of every other parameter. -/
theorem execute_skip_confirmation_never_polls {R : Type}
    (submit : Nat → Except String R) (statuses : Nat → Nat → StatusResp)
    (maxRetries maxTimeout : Nat) (target : Int) (finalized : Bool) :
    (execute submit statuses maxRetries true maxTimeout target
      finalized).confInvocations = 0 :=
  executeLoop_skipTrue_confCalls submit statuses maxTimeout target finalized
    maxRetries 0 0

end ExecutionEngine
